import Mathlib

/-
Verification of drivers/hid/hid-steelseries-headset.c.

Shallow embedding: the per-device state (struct steelseries_headset) is a
Lean structure; machine integers are Nat with explicit `% 256` where a value
is stored into the `uint8_t battery_capacity` field; the raw-event handler,
the remove path, the probe path and the battery-fetch helpers are translated
as pure functions that return the successor state together with the external
effects they emitted (wireless-status notification, power-supply change
notification, outbound control transfers, debug logging).
-/

namespace SteelseriesHeadset

/-- Quirk bit BIT(0): STEELSERIES_ARCTIS_1. -/
def STEELSERIES_ARCTIS_1 : Nat := 1

/-- Poll delay constant STEELSERIES_HEADSET_BATTERY_TIMEOUT_MS. -/
def STEELSERIES_HEADSET_BATTERY_TIMEOUT_MS : Nat := 3000

/-- Error number ENOMEM (returned as -ENOMEM). -/
def ENOMEM : Int := 12

/-- Error number ENODATA (returned as -ENODATA). -/
def ENODATA : Int := 61

/-- The mutable per-device state of `struct steelseries_headset` that the
claims are about.  `battery_work_pending` models whether the delayed work
item `battery_work` is currently armed (queued, not yet fired). -/
structure Headset where
  quirks : Nat
  battery_capacity : Nat
  headset_connected : Bool
  removed : Bool
  battery_work_pending : Bool
  deriving Repr, DecidableEq

/-- The outcome of one call to the raw-event handler: the successor device
state, the wireless-status notification (`some b` when
`usb_set_wireless_status` was called with connected status `b`), whether
`power_supply_changed` was called, whether control reached the final
spin-locked arming block, and the C return value. -/
structure RawEventResult where
  headset : Headset
  wireless_notify : Option Bool
  power_notify : Bool
  arm_attempted : Bool
  ret : Int
  deriving Repr, DecidableEq

/-- The tail of steelseries_headset_raw_event (source lines 222-252): the
two change-detection blocks followed by the spin-locked arming block.
`connected` and `capacity` are the local variables at that point.  The
store into the `uint8_t` field truncates with `% 256`. -/
def rawEventFinish (h : Headset) (connected : Bool) (capacity : Nat) :
    RawEventResult :=
  let wn : Option Bool :=
    if connected ≠ h.headset_connected then some connected else none
  let h1 : Headset :=
    if connected ≠ h.headset_connected then
      { h with headset_connected := connected }
    else h
  let pn : Bool := decide (capacity ≠ h1.battery_capacity)
  let h2 : Headset :=
    if capacity ≠ h1.battery_capacity then
      { h1 with battery_capacity := capacity % 256 }
    else h1
  let h3 : Headset :=
    if ¬ h2.removed then { h2 with battery_work_pending := true } else h2
  { headset := h3, wireless_notify := wn, power_notify := pn,
    arm_attempted := true, ret := 0 }

/-- steelseries_headset_raw_event (source lines 199-253).  `read_buf` is the
report payload (bytes, each < 256 in the real device), `size` the length
argument passed by the HID core.  Inside the Arctis-1 quirk branch a report
shorter than 8 bytes returns 0 immediately, before the arming block. -/
def steelseries_headset_raw_event (h : Headset) (read_buf : List Nat)
    (size : Nat) : RawEventResult :=
  let capacity := h.battery_capacity
  let connected := h.headset_connected
  if h.quirks &&& STEELSERIES_ARCTIS_1 ≠ 0 then
    if size < 8 then
      { headset := h, wireless_notify := none, power_notify := false,
        arm_attempted := false, ret := 0 }
    else if read_buf.getD 2 0 = 0x01 then
      rawEventFinish h false 100
    else
      rawEventFinish h true (read_buf.getD 3 0)
  else
    rawEventFinish h connected capacity

/-- steelseries_headset_remove (source lines 185-197): sets `removed` under
the lock, then cancel_delayed_work_sync cancels any armed poll task. -/
def steelseries_headset_remove (h : Headset) : Headset :=
  { h with removed := true, battery_work_pending := false }

/-- Deliver a sequence of inbound reports to the device, threading the state
through the raw-event handler (each report's size argument is its length). -/
def deliverAll (h : Headset) (reports : List (List Nat)) : Headset :=
  reports.foldl
    (fun s buf => (steelseries_headset_raw_event s buf buf.length).headset) h

/-- The decoded candidate `(connected, capacity)` pair: the values the local
variables of the raw-event handler hold when control reaches the
change-detection blocks; on the paths that never reach them (Arctis-1 short
report) they equal the stored values. -/
def decodeCandidate (h : Headset) (read_buf : List Nat) (size : Nat) :
    Bool × Nat :=
  if h.quirks &&& STEELSERIES_ARCTIS_1 ≠ 0 ∧ ¬ size < 8 then
    if read_buf.getD 2 0 = 0x01 then (false, 100)
    else (true, read_buf.getD 3 0)
  else (h.headset_connected, h.battery_capacity)

/-- One outbound control transfer, as issued by hid_hw_raw_request:
report number (first byte of the request), buffer contents and length.
The report type is HID_OUTPUT_REPORT with HID_REQ_SET_REPORT, constant at
the single call site. -/
structure RawRequestCall where
  reportnum : Nat
  buf : List Nat
  len : Nat
  deriving Repr, DecidableEq

/-- steelseries_headset_arctis_1_fetch_battery (source lines 40-60).
`kmemdup_ok` models whether the kmemdup allocation succeeds; `transport`
is the byte count (or negative error) hid_hw_raw_request reports for the
issued transfer.  Returns the C return value and the transfer actually
issued, if any.  The source's test `ret < sizeof(battery_request)` compares
the int `ret` against a size_t, so the usual arithmetic conversions promote
`ret` to the 64-bit unsigned type (value mod 2^64) before the comparison:
a negative `ret` wraps to a huge value and skips the branch. -/
def steelseries_headset_arctis_1_fetch_battery (kmemdup_ok : Bool)
    (transport : Int) : Int × Option RawRequestCall :=
  let battery_request : List Nat := [0x06, 0x12]
  if ¬ kmemdup_ok then (-ENOMEM, none)
  else
    let call : RawRequestCall :=
      { reportnum := battery_request.getD 0 0, buf := battery_request,
        len := battery_request.length }
    let ret : Int := transport
    let ret :=
      if ret.emod (2 ^ 64) < (battery_request.length : Int) then -ENODATA
      else ret
    (ret, some call)

/-- The caller-visible outcome of steelseries_headset_fetch_battery: the
transfers issued and whether the hid_dbg diagnostic line ran.  The C
function returns void, so no error is propagated. -/
structure FetchBatteryOut where
  calls : List RawRequestCall
  dbg_logged : Bool
  deriving Repr, DecidableEq

/-- steelseries_headset_fetch_battery (source lines 62-73): dispatch on the
Arctis-1 quirk; a negative result is logged with hid_dbg and nothing else
happens (no retry, no propagation). -/
def steelseries_headset_fetch_battery (quirks : Nat) (kmemdup_ok : Bool)
    (transport : Int) : FetchBatteryOut :=
  if quirks &&& STEELSERIES_ARCTIS_1 ≠ 0 then
    let r := steelseries_headset_arctis_1_fetch_battery kmemdup_ok transport
    { calls := r.2.toList, dbg_logged := r.1 < 0 }
  else
    { calls := [], dbg_logged := false }

/-- steelseries_headset_battery_register (source lines 120-156) reduced to
its return value: `kasprintf_ok` models the devm_kasprintf allocation of the
supply name, `ps_register` the devm_power_supply_register outcome (an error
number on failure). -/
def steelseries_headset_battery_register (kasprintf_ok : Bool)
    (ps_register : Except Int Unit) : Int :=
  if ¬ kasprintf_ok then -ENOMEM
  else
    match ps_register with
    | .error e => e
    | .ok _ => 0

/-- steelseries_headset_probe (source lines 158-183): `kzalloc_ok` models
the devm_kzalloc of the headset struct, `parse_ret` and `hw_start_ret` the
hid_parse / hid_hw_start results, and the battery-register parameters are
passed through.  Returns the probe return value together with whether the
battery-register failure was logged with hid_err.  The battery-register
result is only compared against 0 to decide logging; the function returns
`ret`, which still holds the hid_hw_start result. -/
def steelseries_headset_probe (kzalloc_ok : Bool) (parse_ret : Int)
    (hw_start_ret : Int) (kasprintf_ok : Bool)
    (ps_register : Except Int Unit) : Int × Bool :=
  if ¬ kzalloc_ok then (-ENOMEM, false)
  else if parse_ret ≠ 0 then (parse_ret, false)
  else if hw_start_ret ≠ 0 then (hw_start_ret, false)
  else
    let reg := steelseries_headset_battery_register kasprintf_ok ps_register
    (hw_start_ret, reg < 0)

/-- Modelled from the spec: the kernel delayed-work scheduler
(schedule_delayed_work and the workqueue core) is not under src/; the spec
describes `scheduleNextTick(delay)` as checking `removed` under the shared
lock and, if false, arming the deferred task to fire after `delay` from now,
replacing any previously armed instance for this device.  `pendingTasks`
holds the deadlines of the armed instances (the spec asserts at most one). -/
structure SchedState where
  removed : Bool
  pendingTasks : List Nat
  deriving Repr, DecidableEq

/-- Modelled from the spec: scheduleNextTick arms the task for `now + delay`,
replacing any pending instance, unless `removed` is set. -/
def scheduleNextTick (s : SchedState) (now delay : Nat) : SchedState :=
  if s.removed then s else { s with pendingTasks := [now + delay] }

/-! ### Sanity checks of the embedding on concrete inputs -/

/-- A freshly probed Arctis-1 device: capacity placeholder 100, not
connected, not removed, no poll armed. -/
def initialArctis : Headset :=
  { quirks := STEELSERIES_ARCTIS_1, battery_capacity := 100,
    headset_connected := false, removed := false,
    battery_work_pending := false }

example :
    steelseries_headset_raw_event initialArctis [0, 0, 0x01, 50, 0, 0, 0, 0] 8 =
    { headset := { initialArctis with battery_work_pending := true },
      wireless_notify := none, power_notify := false,
      arm_attempted := true, ret := 0 } := by decide

example :
    steelseries_headset_raw_event initialArctis [0, 0, 0x00, 77, 0, 0, 0, 0] 8 =
    { headset :=
        { initialArctis with
          headset_connected := true
          battery_capacity := 77
          battery_work_pending := true },
      wireless_notify := some true, power_notify := true,
      arm_attempted := true, ret := 0 } := by decide

example :
    steelseries_headset_raw_event initialArctis [0, 0, 0x01] 3 =
    { headset := initialArctis, wireless_notify := none,
      power_notify := false, arm_attempted := false, ret := 0 } := by decide

/-! ### Helper lemmas about the raw-event tail -/

theorem rawEventFinish_connected (h : Headset) (c : Bool) (cap : Nat) :
    (rawEventFinish h c cap).headset.headset_connected = c := by
  simp only [rawEventFinish]
  split <;> split <;> split <;> simp_all

theorem rawEventFinish_capacity (h : Headset) (c : Bool) (cap : Nat)
    (hcap : cap < 256) :
    (rawEventFinish h c cap).headset.battery_capacity = cap := by
  simp only [rawEventFinish]
  split <;> split <;> split <;> simp_all [Nat.mod_eq_of_lt hcap]

theorem rawEventFinish_wireless (h : Headset) (c : Bool) (cap : Nat) :
    (rawEventFinish h c cap).wireless_notify =
      if c ≠ h.headset_connected then some c else none := rfl

theorem rawEventFinish_power (h : Headset) (c : Bool) (cap : Nat) :
    (rawEventFinish h c cap).power_notify =
      decide (cap ≠ h.battery_capacity) := by
  simp only [rawEventFinish]
  split <;> rfl

theorem rawEventFinish_removed (h : Headset) (c : Bool) (cap : Nat) :
    (rawEventFinish h c cap).headset.removed = h.removed := by
  simp only [rawEventFinish]
  split <;> split <;> split <;> simp_all

theorem rawEventFinish_pending (h : Headset) (c : Bool) (cap : Nat) :
    (rawEventFinish h c cap).headset.battery_work_pending =
      if h.removed then h.battery_work_pending else true := by
  simp only [rawEventFinish]
  split <;> split <;> split <;> simp_all

theorem rawEventFinish_arm (h : Headset) (c : Bool) (cap : Nat) :
    (rawEventFinish h c cap).arm_attempted = true := rfl

/-- The raw-event handler preserves the removed flag, and once it is set the
arming block leaves the pending-work state untouched. -/
theorem raw_event_removed_invariant (s : Headset) (buf : List Nat)
    (size : Nat) (hr : s.removed = true) :
    (steelseries_headset_raw_event s buf size).headset.removed = true ∧
    (steelseries_headset_raw_event s buf size).headset.battery_work_pending =
      s.battery_work_pending := by
  simp only [steelseries_headset_raw_event]
  split
  · split
    · exact ⟨hr, rfl⟩
    · split <;> simp [rawEventFinish_removed, rawEventFinish_pending, hr]
  · simp [rawEventFinish_removed, rawEventFinish_pending, hr]

/-- C1: after steelseries_headset_remove has set the removed flag and the
synchronous cancellation has cleared any pending poll work, every subsequent
sequence of report deliveries leaves the device with no poll task armed and
the removed flag still set: the arm attempt in the raw-event handler
observes removed and does nothing. -/
theorem remove_then_no_poll_ever_armed (h : Headset)
    (reports : List (List Nat)) :
    (deliverAll (steelseries_headset_remove h) reports).removed = true ∧
    (deliverAll (steelseries_headset_remove h) reports).battery_work_pending
      = false := by
  have key : ∀ (rs : List (List Nat)) (s : Headset), s.removed = true →
      s.battery_work_pending = false →
      (deliverAll s rs).removed = true ∧
      (deliverAll s rs).battery_work_pending = false := by
    intro rs
    induction rs with
    | nil => intro s h1 h2; exact ⟨h1, h2⟩
    | cons b bs ih =>
      intro s h1 h2
      have step := raw_event_removed_invariant s b b.length h1
      simpa [deliverAll] using
        ih ((steelseries_headset_raw_event s b b.length).headset) step.1
          (step.2.trans h2)
  exact key reports (steelseries_headset_remove h) rfl rfl

/-- C2: for every report of length at least 8 delivered to an Arctis-1
device whose byte at offset 2 equals 0x01, the handler leaves the device
disconnected with the battery placeholder at 100, regardless of the prior
state. -/
theorem raw_event_absent_report (h : Headset) (buf : List Nat) (size : Nat)
    (hq : h.quirks &&& STEELSERIES_ARCTIS_1 ≠ 0) (hs : 8 ≤ size)
    (hb : buf.getD 2 0 = 0x01) :
    (steelseries_headset_raw_event h buf size).headset.headset_connected
      = false ∧
    (steelseries_headset_raw_event h buf size).headset.battery_capacity
      = 100 := by
  have hns : ¬ size < 8 := by omega
  simp only [steelseries_headset_raw_event, if_pos hq, if_neg hns, hb,
    if_pos rfl]
  exact ⟨rawEventFinish_connected h false 100,
    rawEventFinish_capacity h false 100 (by omega)⟩

theorem raw_event_absent_report_witness :
    initialArctis.quirks &&& STEELSERIES_ARCTIS_1 ≠ 0 ∧
    (steelseries_headset_raw_event
      { initialArctis with headset_connected := true, battery_capacity := 42 }
      [0, 0, 0x01, 7, 0, 0, 0, 0] 8).headset.headset_connected = false ∧
    (steelseries_headset_raw_event
      { initialArctis with headset_connected := true, battery_capacity := 42 }
      [0, 0, 0x01, 7, 0, 0, 0, 0] 8).headset.battery_capacity = 100 :=
  ⟨by decide,
    (raw_event_absent_report
      { initialArctis with headset_connected := true, battery_capacity := 42 }
      [0, 0, 0x01, 7, 0, 0, 0, 0] 8 (by decide) (by decide) (by decide)).1,
    (raw_event_absent_report
      { initialArctis with headset_connected := true, battery_capacity := 42 }
      [0, 0, 0x01, 7, 0, 0, 0, 0] 8 (by decide) (by decide) (by decide)).2⟩

/-- C3: for every report of length at least 8 delivered to an Arctis-1
device whose byte at offset 2 is not 0x01, the handler records the device
as connected and stores the byte at offset 3 verbatim as the battery
percentage (bytes of a u8 buffer are below 256; no range validation). -/
theorem raw_event_present_report (h : Headset) (buf : List Nat) (size : Nat)
    (hq : h.quirks &&& STEELSERIES_ARCTIS_1 ≠ 0) (hs : 8 ≤ size)
    (hb : buf.getD 2 0 ≠ 0x01) (hb3 : buf.getD 3 0 < 256) :
    (steelseries_headset_raw_event h buf size).headset.headset_connected
      = true ∧
    (steelseries_headset_raw_event h buf size).headset.battery_capacity
      = buf.getD 3 0 := by
  have hns : ¬ size < 8 := by omega
  simp only [steelseries_headset_raw_event, if_pos hq, if_neg hns, if_neg hb]
  exact ⟨rawEventFinish_connected h true (buf.getD 3 0),
    rawEventFinish_capacity h true (buf.getD 3 0) hb3⟩

theorem raw_event_present_report_witness :
    (steelseries_headset_raw_event initialArctis
      [0, 0, 0x00, 77, 0, 0, 0, 0] 8).headset.headset_connected = true ∧
    (steelseries_headset_raw_event initialArctis
      [0, 0, 0x00, 77, 0, 0, 0, 0] 8).headset.battery_capacity = 77 :=
  ⟨(raw_event_present_report initialArctis [0, 0, 0x00, 77, 0, 0, 0, 0] 8
      (by decide) (by decide) (by decide) (by decide)).1,
    (raw_event_present_report initialArctis [0, 0, 0x00, 77, 0, 0, 0, 0] 8
      (by decide) (by decide) (by decide) (by decide)).2⟩

/-- C4: for every report shorter than 8 bytes delivered to an Arctis-1
device, the handler returns with the device state unchanged and no
notification to either collaborator. -/
theorem raw_event_short_report (h : Headset) (buf : List Nat) (size : Nat)
    (hq : h.quirks &&& STEELSERIES_ARCTIS_1 ≠ 0) (hs : size < 8) :
    (steelseries_headset_raw_event h buf size).headset = h ∧
    (steelseries_headset_raw_event h buf size).wireless_notify = none ∧
    (steelseries_headset_raw_event h buf size).power_notify = false := by
  simp only [steelseries_headset_raw_event, if_pos hq, if_pos hs]
  exact ⟨trivial, trivial, trivial⟩

theorem raw_event_short_report_witness :
    (steelseries_headset_raw_event initialArctis [0, 0, 0x01] 3).headset
      = initialArctis ∧
    (steelseries_headset_raw_event initialArctis
      [0, 0, 0x01] 3).wireless_notify = none ∧
    (steelseries_headset_raw_event initialArctis
      [0, 0, 0x01] 3).power_notify = false :=
  raw_event_short_report initialArctis [0, 0, 0x01] 3 (by decide) (by decide)

theorem rawEventFinish_capacity_self (h : Headset) (c : Bool) :
    (rawEventFinish h c h.battery_capacity).headset.battery_capacity =
      h.battery_capacity := by
  simp only [rawEventFinish]
  split <;> split <;> split <;> simp_all

/-- The raw-event tail fires each notification exactly when the candidate
value differs from the stored one, and mutates each stored field exactly
when its notification fires. -/
theorem rawEventFinish_notify_spec (h : Headset) (c : Bool) (cap : Nat)
    (hcap : cap < 256 ∨ cap = h.battery_capacity) :
    ((rawEventFinish h c cap).wireless_notify.isSome ↔
      c ≠ h.headset_connected) ∧
    ((rawEventFinish h c cap).power_notify = true ↔
      cap ≠ h.battery_capacity) ∧
    ((rawEventFinish h c cap).headset.headset_connected ≠
        h.headset_connected ↔ c ≠ h.headset_connected) ∧
    ((rawEventFinish h c cap).headset.battery_capacity ≠
        h.battery_capacity ↔ cap ≠ h.battery_capacity) := by
  refine ⟨?_, ?_, ?_, ?_⟩
  · rw [rawEventFinish_wireless]
    by_cases hc : c = h.headset_connected <;> simp [hc]
  · rw [rawEventFinish_power]; simp
  · rw [rawEventFinish_connected]
  · rcases hcap with h256 | hself
    · rw [rawEventFinish_capacity h c cap h256]
    · rw [hself, rawEventFinish_capacity_self]

/-- C5: in the raw-event handler, the wireless-status notification fires if
and only if the decoded connected value differs from the stored one, the
power-supply change notification fires if and only if the decoded battery
value differs from the stored one, and each stored field is mutated exactly
when its notification fires (report bytes come from a u8 buffer, hence are
below 256). -/
theorem raw_event_notify_iff_change (h : Headset) (buf : List Nat)
    (size : Nat) (hb3 : buf.getD 3 0 < 256) :
    ((steelseries_headset_raw_event h buf size).wireless_notify.isSome ↔
      (decodeCandidate h buf size).1 ≠ h.headset_connected) ∧
    ((steelseries_headset_raw_event h buf size).power_notify = true ↔
      (decodeCandidate h buf size).2 ≠ h.battery_capacity) ∧
    ((steelseries_headset_raw_event h buf size).headset.headset_connected ≠
        h.headset_connected ↔
      (steelseries_headset_raw_event h buf size).wireless_notify.isSome) ∧
    ((steelseries_headset_raw_event h buf size).headset.battery_capacity ≠
        h.battery_capacity ↔
      (steelseries_headset_raw_event h buf size).power_notify = true) := by
  by_cases hq : h.quirks &&& STEELSERIES_ARCTIS_1 ≠ 0
  · by_cases hs : size < 8
    · have hnot : ¬ (h.quirks &&& STEELSERIES_ARCTIS_1 ≠ 0 ∧ ¬ size < 8) :=
        fun hc => hc.2 hs
      have hd : decodeCandidate h buf size =
          (h.headset_connected, h.battery_capacity) := by
        simp only [decodeCandidate, if_neg hnot]
      rw [hd]
      simp [steelseries_headset_raw_event, if_pos hq, if_pos hs]
    · by_cases hb : buf.getD 2 0 = 0x01
      · have hd : decodeCandidate h buf size = (false, 100) := by
          simp only [decodeCandidate, if_pos (And.intro hq hs), if_pos hb]
        have hr : steelseries_headset_raw_event h buf size =
            rawEventFinish h false 100 := by
          simp only [steelseries_headset_raw_event, if_pos hq, if_neg hs,
            if_pos hb]
        rw [hd, hr]
        have spec := rawEventFinish_notify_spec h false 100 (Or.inl (by omega))
        exact ⟨spec.1, spec.2.1, spec.2.2.1.trans spec.1.symm,
          spec.2.2.2.trans spec.2.1.symm⟩
      · have hd : decodeCandidate h buf size = (true, buf.getD 3 0) := by
          simp only [decodeCandidate, if_pos (And.intro hq hs), if_neg hb]
        have hr : steelseries_headset_raw_event h buf size =
            rawEventFinish h true (buf.getD 3 0) := by
          simp only [steelseries_headset_raw_event, if_pos hq, if_neg hs,
            if_neg hb]
        rw [hd, hr]
        have spec := rawEventFinish_notify_spec h true (buf.getD 3 0)
          (Or.inl hb3)
        exact ⟨spec.1, spec.2.1, spec.2.2.1.trans spec.1.symm,
          spec.2.2.2.trans spec.2.1.symm⟩
  · have hnot : ¬ (h.quirks &&& STEELSERIES_ARCTIS_1 ≠ 0 ∧ ¬ size < 8) :=
      fun hc => hq hc.1
    have hd : decodeCandidate h buf size =
        (h.headset_connected, h.battery_capacity) := by
      simp only [decodeCandidate, if_neg hnot]
    have hr : steelseries_headset_raw_event h buf size =
        rawEventFinish h h.headset_connected h.battery_capacity := by
      simp only [steelseries_headset_raw_event, if_neg hq]
    rw [hd, hr]
    have spec := rawEventFinish_notify_spec h h.headset_connected
      h.battery_capacity (Or.inr rfl)
    exact ⟨spec.1, spec.2.1, spec.2.2.1.trans spec.1.symm,
      spec.2.2.2.trans spec.2.1.symm⟩

theorem raw_event_notify_iff_change_witness :
    ((steelseries_headset_raw_event initialArctis
        [0, 0, 0x00, 77, 0, 0, 0, 0] 8).wireless_notify.isSome ↔
      (decodeCandidate initialArctis [0, 0, 0x00, 77, 0, 0, 0, 0] 8).1 ≠
        initialArctis.headset_connected) ∧
    ((steelseries_headset_raw_event initialArctis
        [0, 0, 0x00, 77, 0, 0, 0, 0] 8).power_notify = true ↔
      (decodeCandidate initialArctis [0, 0, 0x00, 77, 0, 0, 0, 0] 8).2 ≠
        initialArctis.battery_capacity) ∧
    ((steelseries_headset_raw_event initialArctis
        [0, 0, 0x00, 77, 0, 0, 0, 0] 8).headset.headset_connected ≠
        initialArctis.headset_connected ↔
      (steelseries_headset_raw_event initialArctis
        [0, 0, 0x00, 77, 0, 0, 0, 0] 8).wireless_notify.isSome) ∧
    ((steelseries_headset_raw_event initialArctis
        [0, 0, 0x00, 77, 0, 0, 0, 0] 8).headset.battery_capacity ≠
        initialArctis.battery_capacity ↔
      (steelseries_headset_raw_event initialArctis
        [0, 0, 0x00, 77, 0, 0, 0, 0] 8).power_notify = true) :=
  raw_event_notify_iff_change initialArctis [0, 0, 0x00, 77, 0, 0, 0, 0] 8
    (by decide)

/-- C6 counterexample: on an Arctis-1 device that has not been removed, a
1-byte report makes the handler return at the short-report check without
ever reaching the arming block — no poll task gets armed even though
`removed` is false, refuting the claim that the arming attempt is reached
on every call. -/
theorem raw_event_arm_not_always_reached :
    initialArctis.removed = false ∧
    initialArctis.quirks &&& STEELSERIES_ARCTIS_1 ≠ 0 ∧
    (steelseries_headset_raw_event initialArctis [0] 1).arm_attempted
      = false ∧
    (steelseries_headset_raw_event initialArctis
      [0] 1).headset.battery_work_pending = false := by decide

/-- C6 amended: the arming block is reached exactly on the calls that do not
take the Arctis-1 short-report early return, and whenever it is reached the
arming is gated only on the removed flag: the poll task is armed if removed
is false and the pending state is untouched otherwise. -/
theorem raw_event_arm_gated (h : Headset) (buf : List Nat) (size : Nat) :
    ((steelseries_headset_raw_event h buf size).arm_attempted = true ↔
      ¬ (h.quirks &&& STEELSERIES_ARCTIS_1 ≠ 0 ∧ size < 8)) ∧
    ((steelseries_headset_raw_event h buf size).arm_attempted = true →
      (steelseries_headset_raw_event h buf size).headset.battery_work_pending
        = if h.removed then h.battery_work_pending else true) := by
  by_cases hq : h.quirks &&& STEELSERIES_ARCTIS_1 ≠ 0
  · by_cases hs : size < 8
    · simp only [steelseries_headset_raw_event, if_pos hq, if_pos hs]
      simp [hq, hs]
    · by_cases hb : buf.getD 2 0 = 0x01
      · simp only [steelseries_headset_raw_event, if_pos hq, if_neg hs,
          if_pos hb]
        simp [rawEventFinish_arm, rawEventFinish_pending, hs]
      · simp only [steelseries_headset_raw_event, if_pos hq, if_neg hs,
          if_neg hb]
        simp [rawEventFinish_arm, rawEventFinish_pending, hs]
  · simp only [steelseries_headset_raw_event, if_neg hq]
    simp [rawEventFinish_arm, rawEventFinish_pending, hq]

theorem raw_event_arm_gated_witness :
    (steelseries_headset_raw_event initialArctis
      [0, 0, 2, 55, 0, 0, 0, 0] 8).headset.battery_work_pending = true := by
  have spec := raw_event_arm_gated initialArctis [0, 0, 2, 55, 0, 0, 0, 0] 8
  have harm : (steelseries_headset_raw_event initialArctis
      [0, 0, 2, 55, 0, 0, 0, 0] 8).arm_attempted = true :=
    spec.1.mpr (by decide)
  rw [spec.2 harm]
  decide

/-- C7 (modelled from the spec, see scheduleNextTick): arming keeps at most
one poll task pending, and arming a second time before the first fires
replaces the pending task with one carrying the new deadline, rather than
duplicating it or keeping the old deadline. -/
theorem scheduleNextTick_single_replace (s : SchedState) (t1 t2 d : Nat)
    (hp : s.pendingTasks.length ≤ 1) :
    (scheduleNextTick s t1 d).pendingTasks.length ≤ 1 ∧
    (s.removed = false →
      (scheduleNextTick (scheduleNextTick s t1 d) t2 d).pendingTasks
        = [t2 + d]) := by
  constructor
  · simp only [scheduleNextTick]
    split
    · exact hp
    · simp
  · intro hr
    simp [scheduleNextTick, hr]

theorem scheduleNextTick_single_replace_witness :
    (scheduleNextTick (scheduleNextTick ⟨false, []⟩ 0 3000) 5 3000).pendingTasks
      = [3005] :=
  (scheduleNextTick_single_replace ⟨false, []⟩ 0 5 3000 (by decide)).2 rfl

/-- C8: the battery fetch does build exactly the two-byte command 0x06 0x12
and issues it as a single outbound transfer with report number 0x06, and a
short positive count (1 byte accepted) is converted to -ENODATA; but the
comparison `ret < sizeof(battery_request)` promotes the int `ret` to the
unsigned size_t, so a negative transport error (here -32, -EPIPE) wraps
past the bound, skips the hid_err and -ENODATA branch, and is returned
verbatim — the claimed conversion to the transfer error does not happen on
that path (the caller still sees a negative value and logs it at debug
level).  This evaluates the code at the failing input. -/
theorem fetch_battery_signedness_bug :
    (steelseries_headset_arctis_1_fetch_battery true (-32)).1 = -32 ∧
    (steelseries_headset_arctis_1_fetch_battery true (-32)).1 ≠ -ENODATA ∧
    (steelseries_headset_arctis_1_fetch_battery true (-32)).2 =
      some { reportnum := 0x06, buf := [0x06, 0x12], len := 2 } ∧
    (steelseries_headset_arctis_1_fetch_battery true 1).1 = -ENODATA ∧
    (steelseries_headset_fetch_battery STEELSERIES_ARCTIS_1 true
      (-32)).calls =
      [{ reportnum := 0x06, buf := [0x06, 0x12], len := 2 }] ∧
    (steelseries_headset_fetch_battery STEELSERIES_ARCTIS_1 true
      (-32)).dbg_logged = true := by
  refine ⟨?_, ?_, ?_, ?_, ?_, ?_⟩ <;> decide

/-- C9 counterexample: when the devm_kasprintf allocation of the battery
name fails during battery registration, battery_register returns -ENOMEM,
yet probe (with the struct allocation, hid_parse and hid_hw_start all
succeeding) merely logs the failure and returns 0 — the allocation failure
is not propagated and the attach succeeds. -/
theorem probe_swallows_register_alloc_failure :
    steelseries_headset_battery_register false (Except.ok ()) = -ENOMEM ∧
    steelseries_headset_probe true 0 0 false (Except.ok ()) = (0, true) := by
  constructor
  · rfl
  · simp [steelseries_headset_probe, steelseries_headset_battery_register,
      ENOMEM]

/-- C9 amended: the devm_kzalloc failure of the device struct in probe is
fatal and propagated as -ENOMEM, but an allocation failure inside battery
registration is not: battery_register returns -ENOMEM and probe only logs
it and returns 0, so the attach still succeeds. -/
theorem probe_alloc_failure_propagation (parse_ret hw_start_ret : Int)
    (kasprintf_ok : Bool) (ps : Except Int Unit) :
    steelseries_headset_probe false parse_ret hw_start_ret kasprintf_ok ps
      = (-ENOMEM, false) ∧
    steelseries_headset_battery_register false ps = -ENOMEM ∧
    steelseries_headset_probe true 0 0 false ps = (0, true) := by
  refine ⟨by simp [steelseries_headset_probe], rfl, ?_⟩
  simp [steelseries_headset_probe, steelseries_headset_battery_register,
    ENOMEM]

/-- C10: on a device without the Arctis-1 quirk the raw-event handler, for a
report of any length, leaves connected and battery unchanged, emits no
notification, and still reaches the arming block, arming the poll task
exactly when removed is false. -/
theorem raw_event_non_arctis_frame (h : Headset) (buf : List Nat)
    (size : Nat) (hq : h.quirks &&& STEELSERIES_ARCTIS_1 = 0) :
    (steelseries_headset_raw_event h buf size).headset.headset_connected
      = h.headset_connected ∧
    (steelseries_headset_raw_event h buf size).headset.battery_capacity
      = h.battery_capacity ∧
    (steelseries_headset_raw_event h buf size).wireless_notify = none ∧
    (steelseries_headset_raw_event h buf size).power_notify = false ∧
    (steelseries_headset_raw_event h buf size).arm_attempted = true ∧
    (steelseries_headset_raw_event h buf size).headset.battery_work_pending
      = if h.removed then h.battery_work_pending else true := by
  have hq' : ¬ h.quirks &&& STEELSERIES_ARCTIS_1 ≠ 0 := by simp [hq]
  have hr : steelseries_headset_raw_event h buf size =
      rawEventFinish h h.headset_connected h.battery_capacity := by
    simp only [steelseries_headset_raw_event, if_neg hq']
  rw [hr]
  refine ⟨rawEventFinish_connected h _ _, rawEventFinish_capacity_self h _,
    ?_, ?_, rawEventFinish_arm h _ _, rawEventFinish_pending h _ _⟩
  · rw [rawEventFinish_wireless]
    simp
  · rw [rawEventFinish_power]
    simp

theorem raw_event_non_arctis_frame_witness :
    (steelseries_headset_raw_event
      { initialArctis with quirks := 0 } [0, 0, 1] 3).headset =
      { initialArctis with quirks := 0, battery_work_pending := true } ∧
    (steelseries_headset_raw_event
      { initialArctis with quirks := 0 } [0, 0, 1] 3).wireless_notify
      = none := by
  have spec := raw_event_non_arctis_frame
    { initialArctis with quirks := 0 } [0, 0, 1] 3 (by decide)
  exact ⟨by decide, spec.2.2.1⟩

end SteelseriesHeadset
